import Mathlib

set_option linter.unusedVariables false

/-!
Verification of the fever-nli repository (src/input_da.py, src/main.py).

The Python code is shallowly embedded: JSON values parsed by `json.load`
become the inductive `JValue`; Python operations that can raise
(`x["k"]` subscription, iteration, `str` concatenation) become
`Except PyError` computations; the functions `get_claim_evidence_pairs`,
`load_nli`, `load_fever_chunk` and the `_input_fn` factories are
translated statement by statement from src/input_da.py, and the argparse
surface of src/main.py is translated into a list of argument
specifications.  The sklearn vectorizers (`CountVectorizer`,
`TfidfVectorizer`) are external library objects: their fitted transforms
are taken as function parameters, so every theorem about `load_nli`
quantifies over them.  Cosine similarity values are represented exactly:
sklearn's cosine kernel of vectors x, y is (x.y) / (sqrt(x.x) * sqrt(y.y)),
which is fully determined by the triple (x.y, x.x, y.y); the structure
`CosVal` records that triple so that everything stays computable.
-/

namespace FeverNli

/-- A JSON value as produced by Python's `json.load`. -/
inductive JValue : Type where
  | jNull : JValue
  | jBool : Bool → JValue
  | jNum : ℚ → JValue
  | jStr : String → JValue
  | jArr : List JValue → JValue
  | jObj : List (String × JValue) → JValue

/-- Python exceptions that the embedded code can raise. -/
inductive PyError : Type where
  | typeError : PyError
  | keyError : String → PyError
  | valueError : String → PyError
  deriving DecidableEq, Repr

/-- Python subscription `v[k]` with a string key: a key lookup on a dict,
a `TypeError` on every other value (in particular on a list). -/
def pyIndexStr (v : JValue) (k : String) : Except PyError JValue :=
  match v with
  | JValue.jObj kvs =>
    match kvs.find? (fun kv => kv.1 == k) with
    | some kv => Except.ok kv.2
    | none => Except.error (PyError.keyError k)
  | _ => Except.error PyError.typeError

/-- Python iteration `for x in v`: the elements of a list, the characters
(as one-character strings) of a string, the keys of a dict; a `TypeError`
on any non-iterable value. -/
def pyIter (v : JValue) : Except PyError (List JValue) :=
  match v with
  | JValue.jArr xs => Except.ok xs
  | JValue.jStr s => Except.ok (s.data.map (fun c => JValue.jStr (String.mk [c])))
  | JValue.jObj kvs => Except.ok (kvs.map (fun kv => JValue.jStr kv.1))
  | _ => Except.error PyError.typeError

/-- Python `acc += v` on a string accumulator: string concatenation when
`v` is a string, a `TypeError` otherwise. -/
def pyAddStr (acc : String) (v : JValue) : Except PyError String :=
  match v with
  | JValue.jStr s => Except.ok (acc ++ s)
  | _ => Except.error PyError.typeError

/-- The inner evidence loop of `get_claim_evidence_pairs`
(src/input_da.py lines 95-97): `concat = ""` followed by
`for evidence in claim_set["evidence"]: concat += evidence`. -/
def concatPy : String → List JValue → Except PyError String
  | acc, [] => Except.ok acc
  | acc, v :: vs =>
    match pyAddStr acc v with
    | Except.error e => Except.error e
    | Except.ok acc2 => concatPy acc2 vs

/-- The running state of `get_claim_evidence_pairs`' main loop:
`claim_list`, `evidence_list`, `document_list`, `label_list`
(src/input_da.py line 92).  `label_list` starts as the empty Python list
`[]` and, per the source, is reassigned (not appended to) on every
iteration. -/
abbrev PairsState := List JValue × List JValue × List String × JValue

/-- The main loop of `get_claim_evidence_pairs` (src/input_da.py lines
93-108): for each `claim_set`, concatenate its `"evidence"` strings,
append the concatenation (or the raw evidence value when
`concat_evidence` is false) to `evidence_list`, append `claim_set["claim"]`
to `claim_list`, append concatenation-plus-claim to `document_list`, and
overwrite `label_list` with `claim_set["label"]`. -/
def processClaims (concat_evidence : Bool) :
    List JValue → PairsState → Except PyError PairsState
  | [], st => Except.ok st
  | cs :: rest, (claimL, evL, docL, _labL) =>
    match pyIndexStr cs "evidence" with
    | Except.error e => Except.error e
    | Except.ok evField =>
      match pyIter evField with
      | Except.error e => Except.error e
      | Except.ok evItems =>
        match concatPy "" evItems with
        | Except.error e => Except.error e
        | Except.ok conc =>
          let evL2 := if concat_evidence then evL ++ [JValue.jStr conc]
                      else evL ++ [evField]
          match pyIndexStr cs "claim" with
          | Except.error e => Except.error e
          | Except.ok claimV =>
            let claimL2 := claimL ++ [claimV]
            match pyAddStr conc claimV with
            | Except.error e => Except.error e
            | Except.ok doc =>
              let docL2 := docL ++ [doc]
              match pyIndexStr cs "label" with
              | Except.error e => Except.error e
              | Except.ok labV =>
                processClaims concat_evidence rest (claimL2, evL2, docL2, labV)

/-- `get_claim_evidence_pairs` (src/input_da.py lines 89-110).  Its first
statement is the debug `print` of line 90, which subscripts the whole
parsed input with the string keys `"claim"` and `"evidence"` (in that
evaluation order) before the loop runs; then the loop iterates over the
input.  The unused `mode` keyword argument of the source is kept. -/
def get_claim_evidence_pairs (d : JValue) (mode : String := "concat")
    (concat_evidence : Bool := true) : Except PyError PairsState :=
  match pyIndexStr d "claim" with
  | Except.error e => Except.error e
  | Except.ok _ =>
    match pyIndexStr d "evidence" with
    | Except.error e => Except.error e
    | Except.ok _ =>
      match pyIter d with
      | Except.error e => Except.error e
      | Except.ok claimSets =>
        processClaims concat_evidence claimSets ([], [], [], JValue.jArr [])

/-- The numerator and the two squared norms of sklearn's cosine kernel:
`cosineValue x y` stands for the real number
`num / (sqrt normSqX * sqrt normSqY)`, which the triple determines
exactly; recording the triple keeps the embedding computable. -/
structure CosVal : Type where
  num : ℚ
  normSqX : ℚ
  normSqY : ℚ
  deriving DecidableEq, Repr

/-- Dot product of two numeric vectors (trailing entries of the longer
vector are ignored, as for equal-length sparse rows). -/
def dot (x y : List ℚ) : ℚ := (List.zipWith (· * ·) x y).sum

/-- The cosine similarity of vectors `x` and `y`, represented by the
triple (x.y, x.x, y.y) that determines it. -/
def cosineValue (x y : List ℚ) : CosVal := ⟨dot x y, dot x x, dot y y⟩

/-- sklearn's `cosine_similarity(X, Y)`: the |X| by |Y| matrix whose
(i, j) entry is the cosine similarity of row i of `X` and row j of `Y`. -/
def cosine_similarity (X Y : List (List ℚ)) : List (List CosVal) :=
  X.map (fun x => Y.map (fun y => cosineValue x y))

/-- Python's four-argument `zip`, truncating to the shortest input. -/
def zip4 {α β γ δ : Type} :
    List α → List β → List γ → List δ → List (α × β × γ × δ)
  | [], _, _, _ => []
  | _ :: _, [], _, _ => []
  | _ :: _, _ :: _, [], _ => []
  | _ :: _, _ :: _, _ :: _, [] => []
  | a :: as, b :: bs, c :: cs, d :: ds => (a, b, c, d) :: zip4 as bs cs ds

/-- One tuple yielded by `load_nli` (src/input_da.py line 87):
`(tf_claim, tfidf_sim, tf_evidence, label)`. -/
abbrev NliTuple := List ℚ × List CosVal × List ℚ × JValue

/-- The TF-IDF similarity computation of `load_nli` (src/input_da.py
lines 79-81): transform claims and evidences with the fitted TF-IDF
vectorizer and take all-pairs cosine similarity,
`cosine_similarity(tfidf_claims, tfidf_evidences)`. -/
def nli_tfidf_sims (tfidf_vec : JValue → List ℚ)
    (claims evidences : List JValue) : List (List CosVal) :=
  cosine_similarity (claims.map tfidf_vec) (evidences.map tfidf_vec)

/-- Lines 73-87 of src/input_da.py after `get_claim_evidence_pairs`
returns: the `CountVectorizer`/`TfidfVectorizer` fitting of lines 73-74
is external sklearn behaviour, so the fitted transforms are the
parameters `tfFit` and `tfidfFit` applied to `documents`; claims and
evidences are transformed (lines 77-80), the all-pairs similarity matrix
is computed (line 81), and line 85's `zip(tf_claims, tf_evidences,
tfidf_sims, labels)` iterates `labels` (the `label_list` value, raising
`TypeError` when it is not iterable) and yields
`(tf_claim, tfidf_sim, tf_evidence, label)` tuples (line 87). -/
def load_nli_core (tfFit tfidfFit : List String → JValue → List ℚ)
    (claims evidences : List JValue) (documents : List String)
    (labels : JValue) : Except PyError (List NliTuple) :=
  match pyIter labels with
  | Except.error e => Except.error e
  | Except.ok labelItems =>
    Except.ok ((zip4 (claims.map (tfFit documents))
                     (evidences.map (tfFit documents))
                     (nli_tfidf_sims (tfidfFit documents) claims evidences)
                     labelItems).map
                (fun t => (t.1, t.2.2.1, t.2.1, t.2.2.2)))

/-- `load_nli` (src/input_da.py lines 61-87) applied to the parsed JSON
content of its file: first `get_claim_evidence_pairs` (line 71), then the
vectorize/similarity/zip pipeline of lines 73-87. -/
def load_nli (tfFit tfidfFit : List String → JValue → List ℚ)
    (data : JValue) : Except PyError (List NliTuple) :=
  match get_claim_evidence_pairs data with
  | Except.error e => Except.error e
  | Except.ok (claims, evidences, documents, labels) =>
    load_nli_core tfFit tfidfFit claims evidences documents labels

/-- The body of `_input_fn` inside `get_input_fn` (src/input_da.py lines
14-26): the dataset is stubbed to `None` for mode `'train'` and for modes
`'eval'`/`'predict'`, and every other mode raises
`ValueError('_input_fn received invalid MODE')`.  `mode` is the inner
function's own parameter (defaulting to `None`, modelled as `none`);
`params` is ignored. -/
def input_fn_body (mode : Option String) (params : Option JValue) :
    Except PyError (Option Unit) :=
  if mode = some "train" then Except.ok none
  else if mode = some "eval" ∨ mode = some "predict" then Except.ok none
  else Except.error (PyError.valueError "_input_fn received invalid MODE")

/-- The mode dispatch of `_input_fn` inside `get_input_fn_nli`
(src/input_da.py lines 42-48): mode `'train'` selects
`load_nli("example_train.")`, modes `'eval'`/`'predict'` select
`load_nli("example_dev.csv")`, every other mode raises
`ValueError('_input_fn received invalid MODE')`.  The value returned is
the file name handed to `load_nli`; the `tf.data` pipeline built
afterwards (lines 51-57) is external framework machinery that no claim
concerns. -/
def input_fn_nli_body (mode : Option String) (params : Option JValue) :
    Except PyError String :=
  if mode = some "train" then Except.ok "example_train."
  else if mode = some "eval" ∨ mode = some "predict" then
    Except.ok "example_dev.csv"
  else Except.error (PyError.valueError "_input_fn received invalid MODE")

/-- The mode dispatch of `_input_fn` inside `get_input_fn_fever`
(src/input_da.py lines 126-131): mode `'train'` selects
`load_fever_chunk("example_train.csv", chunk_size=2)`, modes
`'eval'`/`'predict'` select `load_fever_chunk("example_dev.csv",
chunk_size=2)`, every other mode raises `ValueError`.  The value
returned is the (file, chunk_size) pair handed to `load_fever_chunk`. -/
def input_fn_fever_body (mode : Option String) (params : Option JValue) :
    Except PyError (String × Nat) :=
  if mode = some "train" then Except.ok ("example_train.csv", 2)
  else if mode = some "eval" ∨ mode = some "predict" then
    Except.ok ("example_dev.csv", 2)
  else Except.error (PyError.valueError "_input_fn received invalid MODE")

/-- `get_input_fn` (src/input_da.py lines 11-28): the factory takes a
`mode` argument but returns an inner function whose own `mode` parameter
(defaulting to `None`) shadows it, so the factory argument is never
read. -/
def get_input_fn (mode : Option String := none) :
    Option String → Option JValue → Except PyError (Option Unit) :=
  fun mode params => input_fn_body mode params

/-- `get_input_fn_nli` (src/input_da.py lines 34-59): same shadowing
shape as `get_input_fn`. -/
def get_input_fn_nli (mode : Option String := none) :
    Option String → Option JValue → Except PyError String :=
  fun mode params => input_fn_nli_body mode params

/-- `get_input_fn_fever` (src/input_da.py lines 117-142): same shadowing
shape as `get_input_fn`. -/
def get_input_fn_fever (mode : Option String := none) :
    Option String → Option JValue → Except PyError (String × Nat) :=
  fun mode params => input_fn_fever_body mode params

/-- Whether an embedded computation raised a `ValueError`. -/
def isValueError {α : Type} : Except PyError α → Bool
  | Except.error (PyError.valueError _) => true
  | _ => false

/-- The loop of `load_fever_chunk` (src/input_da.py lines 156-157): each
iteration over a `(begin, end)` pair would perform
`pd.read_csv(file, skiprows=begin, skipfooter=end)`; the log records the
read operations performed. -/
def chunkLoop (file : String) : List (Nat × Nat) → List (String × Nat × Nat)
  | [] => []
  | (b, e) :: rest => (file, b, e) :: chunkLoop file rest

/-- `load_fever_chunk` (src/input_da.py lines 144-157): the loop range is
the literal empty list `[]`, and the function body ends without a return
statement or a yield, so the result is the pair of the (empty) read log
and Python's implicit `None`. -/
def load_fever_chunk (file : String) (chunk_size : Nat := 1000) :
    List (String × Nat × Nat) × Option Unit :=
  (chunkLoop file [], none)

/-- A parsed command-line value: argparse `type=int`, `type=str` or
`type=float` (float literals embedded as exact rationals). -/
inductive PyVal : Type where
  | vInt : Int → PyVal
  | vStr : String → PyVal
  | vFloat : ℚ → PyVal
  deriving DecidableEq, Repr

/-- The `type=` keyword of an argparse flag. -/
inductive ArgType : Type where
  | tInt
  | tStr
  | tFloat
  deriving DecidableEq, Repr

/-- One `parser.add_argument(...)` call of src/main.py. -/
structure ArgSpec : Type where
  flags : List String
  argType : ArgType
  required : Bool
  default : Option PyVal
  choices : Option (List Int)
  dest : String
  deriving DecidableEq, Repr

/-- The twelve `parser.add_argument` calls of src/main.py (lines
114-187), in source order. -/
def argSpecs : List ArgSpec :=
  [⟨["-m", "--model"], ArgType.tInt, true, none, some [1, 2], "model_type"⟩,
   ⟨["-i", "--data-dir"], ArgType.tStr, true, none, none, "data_dir"⟩,
   ⟨["-o", "--output-dir"], ArgType.tStr, true, none, none, "output_dir"⟩,
   ⟨["-j", "--job-id"], ArgType.tInt, true, none, none, "job_id"⟩,
   ⟨["-a", "--array-job"], ArgType.tInt, false, some (PyVal.vInt 1), none, "repeats"⟩,
   ⟨["-n", "--num-gpus"], ArgType.tInt, false, some (PyVal.vInt 1), none, "num_gpus"⟩,
   ⟨["-c", "--num-cpu-cores"], ArgType.tInt, false, some (PyVal.vInt 4), none, "num_cores"⟩,
   ⟨["-s", "--train-steps"], ArgType.tInt, false, some (PyVal.vInt 100), none, "train_steps"⟩,
   ⟨["-b", "--batch-size"], ArgType.tInt, false, some (PyVal.vInt 128), none, "batch_size"⟩,
   ⟨["-e", "--eval-batch-size"], ArgType.tInt, false, some (PyVal.vInt 128), none, "eval_batch_size"⟩,
   ⟨["-l", "--learning-rate"], ArgType.tFloat, false, some (PyVal.vFloat ((5 : ℚ) / 10000)), none, "learning_rate"⟩,
   ⟨["-u", "--cutoff"], ArgType.tInt, false, some (PyVal.vInt 500), none, "cutoff_len"⟩]

/-- The framework hyperparameter object built in src/main.py line 89:
`tf.contrib.training.HParams(**hparams)` stores the keyword dictionary it
is given. -/
structure HParams : Type where
  values : List (String × PyVal)
  deriving DecidableEq, Repr

/-- The passthrough from parsed arguments to the hyperparameter object:
`main(**vars(args))` (src/main.py line 190) forwards the parsed-argument
dictionary unchanged, and `tf.contrib.training.HParams(**hparams)`
(line 89) stores it. -/
def buildHParams (parsedArgs : List (String × PyVal)) : HParams :=
  ⟨parsedArgs⟩

/-- The string concatenation performed by the evidence loop: left-to-right
fold of `++` starting from the empty string. -/
def concatStrings (l : List String) : String := l.foldl (fun a s => a ++ s) ""

/-- A well-formed claim object: a JSON object with a string `"claim"`
field, an `"evidence"` field holding an array of strings, and a `"label"`
field. -/
def mkClaimObj (c : String) (evs : List String) (lab : JValue) : JValue :=
  JValue.jObj [("claim", JValue.jStr c),
               ("evidence", JValue.jArr (evs.map JValue.jStr)),
               ("label", lab)]

theorem mkClaimObj_claim (c : String) (evs : List String) (lab : JValue) :
    pyIndexStr (mkClaimObj c evs lab) "claim" = Except.ok (JValue.jStr c) := rfl

theorem mkClaimObj_evidence (c : String) (evs : List String) (lab : JValue) :
    pyIndexStr (mkClaimObj c evs lab) "evidence" =
      Except.ok (JValue.jArr (evs.map JValue.jStr)) := rfl

theorem mkClaimObj_label (c : String) (evs : List String) (lab : JValue) :
    pyIndexStr (mkClaimObj c evs lab) "label" = Except.ok lab := rfl

theorem concatPy_strings (evs : List String) : ∀ acc : String,
    concatPy acc (evs.map JValue.jStr) =
      Except.ok (evs.foldl (fun a s => a ++ s) acc) := by
  induction evs with
  | nil => intro acc; rfl
  | cons s ss ih => intro acc; simp [concatPy, pyAddStr, ih]

/-- Claim C7: `load_fever_chunk` contains a dead code path with an empty
loop range: for every file argument and every chunk size, the loop body
never executes, so the function performs no CSV read and produces no
data, returning Python's `None`. -/
theorem fever_loop_dead (file : String) (chunk_size : Nat) :
    load_fever_chunk file chunk_size = ([], none) := rfl

/-- Claim C6: the dataset pipeline of `get_input_fn` is stubbed: for each
of the recognized modes `'train'`, `'eval'` and `'predict'`, the inner
function returned by `get_input_fn` (whatever mode the factory itself was
given) returns `None`, regardless of its `params` argument. -/
theorem dataset_stubbed (fmode : Option String) (params : Option JValue) :
    get_input_fn fmode (some "train") params = Except.ok none ∧
    get_input_fn fmode (some "eval") params = Except.ok none ∧
    get_input_fn fmode (some "predict") params = Except.ok none := by
  refine ⟨rfl, ?_, ?_⟩ <;> simp [get_input_fn, input_fn_body]

/-- Claim C4: supplying an unrecognized mode to the mode dispatch of any
of the three input-function factories raises
`ValueError('_input_fn received invalid MODE')`, while the recognized
modes `'train'`, `'eval'` and `'predict'` make the dispatch raise no
`ValueError`. -/
theorem invalid_mode_raises (mode : Option String) (params : Option JValue) :
    (mode = some "train" ∨ mode = some "eval" ∨ mode = some "predict" →
      isValueError (input_fn_body mode params) = false ∧
      isValueError (input_fn_nli_body mode params) = false ∧
      isValueError (input_fn_fever_body mode params) = false) ∧
    (¬(mode = some "train" ∨ mode = some "eval" ∨ mode = some "predict") →
      input_fn_body mode params =
        Except.error (PyError.valueError "_input_fn received invalid MODE") ∧
      input_fn_nli_body mode params =
        Except.error (PyError.valueError "_input_fn received invalid MODE") ∧
      input_fn_fever_body mode params =
        Except.error (PyError.valueError "_input_fn received invalid MODE")) := by
  constructor
  · rintro (h | h | h) <;> subst h <;>
      simp [input_fn_body, input_fn_nli_body, input_fn_fever_body, isValueError]
  · intro h
    push_neg at h
    obtain ⟨h1, h2, h3⟩ := h
    simp [input_fn_body, input_fn_nli_body, input_fn_fever_body, h1, h2, h3]

/-- Witness for claim C4 at the concrete modes `some "train"` (recognized)
and `none` (unrecognized). -/
theorem invalid_mode_raises_witness :
    (isValueError (input_fn_body (some "train") none) = false ∧
     isValueError (input_fn_nli_body (some "train") none) = false ∧
     isValueError (input_fn_fever_body (some "train") none) = false) ∧
    (input_fn_body none none =
       Except.error (PyError.valueError "_input_fn received invalid MODE") ∧
     input_fn_nli_body none none =
       Except.error (PyError.valueError "_input_fn received invalid MODE") ∧
     input_fn_fever_body none none =
       Except.error (PyError.valueError "_input_fn received invalid MODE")) :=
  ⟨(invalid_mode_raises (some "train") none).1 (Or.inl rfl),
   (invalid_mode_raises none none).2 (by simp)⟩

/-- Claim C9: each input-function factory ignores its own mode argument —
the returned function is the same for every factory argument, because the
inner function's own `mode` parameter (defaulting to `None`) shadows the
factory's — and invoking the returned function without a mode argument
always takes the invalid-mode branch and raises `ValueError`. -/
theorem factory_mode_shadowed :
    (∀ m1 m2 : Option String,
       get_input_fn m1 = get_input_fn m2 ∧
       get_input_fn_nli m1 = get_input_fn_nli m2 ∧
       get_input_fn_fever m1 = get_input_fn_fever m2) ∧
    (∀ (m : Option String) (params : Option JValue),
       get_input_fn m none params =
         Except.error (PyError.valueError "_input_fn received invalid MODE") ∧
       get_input_fn_nli m none params =
         Except.error (PyError.valueError "_input_fn received invalid MODE") ∧
       get_input_fn_fever m none params =
         Except.error (PyError.valueError "_input_fn received invalid MODE")) :=
  ⟨fun _ _ => ⟨rfl, rfl, rfl⟩, fun _ _ => ⟨rfl, rfl, rfl⟩⟩

/-- Claim C10: for every JSON-array input (a list of claim objects),
`get_claim_evidence_pairs` fails before processing any claim — its first
statement subscripts the whole list with the string key `"claim"`, a
`TypeError` — so `load_nli` propagates the error and never yields a
tuple, whatever the vectorizers are. -/
theorem array_input_crashes (xs : List JValue)
    (tfFit tfidfFit : List String → JValue → List ℚ) :
    get_claim_evidence_pairs (JValue.jArr xs) = Except.error PyError.typeError ∧
    load_nli tfFit tfidfFit (JValue.jArr xs) = Except.error PyError.typeError :=
  ⟨rfl, rfl⟩

/-- Claim C2 (code bug): evaluating `load_nli` on the parsed content of a
well-formed one-claim JSON array shows that it raises `TypeError` at
`get_claim_evidence_pairs`' debug print and yields zero tuples, not the
one tuple per claim that the loader's own docstring promises. -/
theorem load_nli_zero_tuples_on_array :
    load_nli (fun _ _ => [1]) (fun _ _ => [1])
      (JValue.jArr [mkClaimObj "c1" ["e1"] (JValue.jStr "SUPPORTS")]) =
      Except.error PyError.typeError := rfl

/-- Claim C3 (code bug): running the loader loop on two well-formed claim
objects labelled "L1" and "L2" leaves `label_list` holding only the last
claim's label value `jStr "L2"` — line 108 assigns instead of appending —
which is not the per-claim label collection `[jStr "L1", jStr "L2"]`. -/
theorem label_list_overwritten :
    processClaims true
      [mkClaimObj "c1" ["e1"] (JValue.jStr "L1"),
       mkClaimObj "c2" ["e2"] (JValue.jStr "L2")]
      ([], [], [], JValue.jArr []) =
      Except.ok ([JValue.jStr "c1", JValue.jStr "c2"],
                 [JValue.jStr "e1", JValue.jStr "e2"],
                 ["e1c1", "e2c2"],
                 JValue.jStr "L2") ∧
    JValue.jStr "L2" ≠ JValue.jArr [JValue.jStr "L1", JValue.jStr "L2"] :=
  ⟨rfl, fun h => JValue.noConfusion h⟩

/-- Claim C8: the command-line surface of src/main.py is exactly the
twelve listed flags with the listed destinations; only the model flag has
a `choices` restriction, to the values 1 and 2; model type, data
directory, output directory and job id are the required flags; and the
parsed arguments are passed through unchanged into the framework's
hyperparameter object. -/
theorem cli_surface_passthrough :
    argSpecs.map (fun a => a.flags) =
      [["-m", "--model"], ["-i", "--data-dir"], ["-o", "--output-dir"],
       ["-j", "--job-id"], ["-a", "--array-job"], ["-n", "--num-gpus"],
       ["-c", "--num-cpu-cores"], ["-s", "--train-steps"],
       ["-b", "--batch-size"], ["-e", "--eval-batch-size"],
       ["-l", "--learning-rate"], ["-u", "--cutoff"]] ∧
    argSpecs.map (fun a => a.dest) =
      ["model_type", "data_dir", "output_dir", "job_id", "repeats",
       "num_gpus", "num_cores", "train_steps", "batch_size",
       "eval_batch_size", "learning_rate", "cutoff_len"] ∧
    argSpecs.map (fun a => a.choices) =
      [some [1, 2], none, none, none, none, none, none, none, none, none,
       none, none] ∧
    (argSpecs.filter (fun a => a.required)).map (fun a => a.dest) =
      ["model_type", "data_dir", "output_dir", "job_id"] ∧
    (∀ parsedArgs : List (String × PyVal),
       (buildHParams parsedArgs).values = parsedArgs) :=
  ⟨rfl, rfl, rfl, rfl, fun _ => rfl⟩

theorem processClaims_mk (triples : List (String × List String × JValue)) :
    ∀ (cl ev : List JValue) (dl : List String) (lb : JValue),
      processClaims true (triples.map (fun t => mkClaimObj t.1 t.2.1 t.2.2))
        (cl, ev, dl, lb) =
      Except.ok (cl ++ triples.map (fun t => JValue.jStr t.1),
                 ev ++ triples.map (fun t => JValue.jStr (concatStrings t.2.1)),
                 dl ++ triples.map (fun t => concatStrings t.2.1 ++ t.1),
                 triples.foldl (fun _ t => t.2.2) lb) := by
  induction triples with
  | nil => intro cl ev dl lb; simp [processClaims]
  | cons t ts ih =>
    intro cl ev dl lb
    obtain ⟨c, evs, lab⟩ := t
    simp only [List.map_cons, List.foldl_cons]
    rw [processClaims, mkClaimObj_evidence]
    simp only [pyIter, concatPy_strings, mkClaimObj_claim, mkClaimObj_label,
      pyAddStr, if_pos rfl]
    rw [ih]
    simp [concatStrings, List.append_assoc]

/-- Claim C5: with `concat_evidence` true, the loader loop maps each
well-formed claim object to an evidence entry equal to the left-to-right
concatenation of its `"evidence"` strings (the empty string for an empty
list) and to a document entry equal to that concatenation followed by the
claim string. -/
theorem concat_evidence_per_claim
    (triples : List (String × List String × JValue)) :
    processClaims true (triples.map (fun t => mkClaimObj t.1 t.2.1 t.2.2))
      ([], [], [], JValue.jArr []) =
      Except.ok (triples.map (fun t => JValue.jStr t.1),
                 triples.map (fun t => JValue.jStr (concatStrings t.2.1)),
                 triples.map (fun t => concatStrings t.2.1 ++ t.1),
                 triples.foldl (fun _ t => t.2.2) (JValue.jArr [])) := by
  simpa using processClaims_mk triples [] [] [] (JValue.jArr [])

theorem zip4_third {α β γ δ : Type} (a : α) (b : β) (c : γ) (d : δ) :
    ∀ (as : List α) (bs : List β) (cs : List γ) (ds : List δ) (i : ℕ),
      (zip4 as bs cs ds)[i]? = some (a, b, c, d) → cs[i]? = some c := by
  intro as
  induction as with
  | nil => intro bs cs ds i h; simp [zip4] at h
  | cons a0 as ih =>
    intro bs cs ds i h
    cases bs with
    | nil => simp [zip4] at h
    | cons b0 bs =>
      cases cs with
      | nil => simp [zip4] at h
      | cons c0 cs =>
        cases ds with
        | nil => simp [zip4] at h
        | cons d0 ds =>
          cases i with
          | zero =>
            simp only [zip4, List.getElem?_cons_zero, Option.some.injEq,
              Prod.mk.injEq] at h
            simp [h.2.2.1]
          | succ i =>
            simp only [zip4, List.getElem?_cons_succ] at h
            simpa using ih bs cs ds i h

/-- The property claim C1 states of `load_nli`'s similarity computation:
the TF-IDF similarity result is the full n-by-n all-pairs matrix — entry
(i, j) is the cosine similarity of claim i's TF-IDF vector and evidence
j's TF-IDF vector — and the similarity component of the tuple yielded for
claim i is the entire i-th row of that matrix. -/
def sims_all_pairs_spec (tfidf_vec : JValue → List ℚ)
    (claims evidences : List JValue) (n : ℕ) (res : List NliTuple) : Prop :=
  (nli_tfidf_sims tfidf_vec claims evidences).length = n ∧
  (∀ row ∈ nli_tfidf_sims tfidf_vec claims evidences, row.length = n) ∧
  (∀ (i j : ℕ) (ci ej : JValue), claims[i]? = some ci → evidences[j]? = some ej →
     ∃ row, (nli_tfidf_sims tfidf_vec claims evidences)[i]? = some row ∧
       row[j]? = some (cosineValue (tfidf_vec ci) (tfidf_vec ej))) ∧
  (∀ (i : ℕ) (tup : NliTuple), res[i]? = some tup →
     (nli_tfidf_sims tfidf_vec claims evidences)[i]? = some tup.2.1)

/-- Claim C1: in `load_nli`, cosine similarity is computed between every
claim vector and every evidence vector: for n claims (and the n evidence
entries the loader pairs with them), the TF-IDF similarity result is the
full n-by-n all-pairs matrix, with entry (i, j) the cosine similarity of
claim i's and evidence j's TF-IDF vectors, and each yielded tuple's
similarity component is the whole row of that matrix belonging to its
claim — not a per-pair diagonal score. -/
theorem nli_all_pairs_similarity
    (tfFit tfidfFit : List String → JValue → List ℚ)
    (claims evidences : List JValue) (documents : List String)
    (labels : JValue) (n : ℕ) (res : List NliTuple)
    (hc : claims.length = n) (he : evidences.length = n)
    (hres : load_nli_core tfFit tfidfFit claims evidences documents labels =
      Except.ok res) :
    sims_all_pairs_spec (tfidfFit documents) claims evidences n res := by
  refine ⟨?_, ?_, ?_, ?_⟩
  · simp [nli_tfidf_sims, cosine_similarity, hc]
  · intro row hrow
    simp only [nli_tfidf_sims, cosine_similarity, List.map_map,
      List.mem_map] at hrow
    obtain ⟨x, hx, rfl⟩ := hrow
    simp [he]
  · intro i j ci ej hci hej
    refine ⟨(evidences.map (tfidfFit documents)).map
      (fun y => cosineValue (tfidfFit documents ci) y), ?_, ?_⟩
    · simp [nli_tfidf_sims, cosine_similarity, List.getElem?_map, hci]
    · simp [List.getElem?_map, hej]
  · intro i tup htup
    unfold load_nli_core at hres
    cases hpl : pyIter labels with
    | error e => rw [hpl] at hres; exact absurd hres (by simp)
    | ok labelItems =>
      rw [hpl] at hres
      simp only [Except.ok.injEq] at hres
      subst hres
      rw [List.getElem?_map] at htup
      cases hz : (zip4 (claims.map (tfFit documents))
          (evidences.map (tfFit documents))
          (nli_tfidf_sims (tfidfFit documents) claims evidences)
          labelItems)[i]? with
      | none => rw [hz] at htup; simp at htup
      | some pre =>
        rw [hz] at htup
        simp only [Option.map_some', Option.some.injEq] at htup
        obtain ⟨a, b, c, d⟩ := pre
        have hcol := zip4_third a b c d _ _ _ _ i hz
        subst htup
        exact hcol

/-- Witness for claim C1 on a concrete two-claim input with constant
vectorizers. -/
theorem nli_all_pairs_similarity_witness :
    (([JValue.jStr "a", JValue.jStr "b"] : List JValue).length = 2 ∧
     ([JValue.jStr "c", JValue.jStr "d"] : List JValue).length = 2 ∧
     load_nli_core (fun _ _ => []) (fun _ _ => [])
       [JValue.jStr "a", JValue.jStr "b"] [JValue.jStr "c", JValue.jStr "d"]
       [] (JValue.jArr [JValue.jNull, JValue.jNull]) =
       Except.ok [([], [⟨0, 0, 0⟩, ⟨0, 0, 0⟩], [], JValue.jNull),
                  ([], [⟨0, 0, 0⟩, ⟨0, 0, 0⟩], [], JValue.jNull)]) ∧
    sims_all_pairs_spec (fun _ => [])
      [JValue.jStr "a", JValue.jStr "b"] [JValue.jStr "c", JValue.jStr "d"] 2
      [([], [⟨0, 0, 0⟩, ⟨0, 0, 0⟩], [], JValue.jNull),
       ([], [⟨0, 0, 0⟩, ⟨0, 0, 0⟩], [], JValue.jNull)] :=
  ⟨⟨rfl, rfl, by rfl⟩,
   nli_all_pairs_similarity (fun _ _ => []) (fun _ _ => [])
     [JValue.jStr "a", JValue.jStr "b"] [JValue.jStr "c", JValue.jStr "d"]
     [] (JValue.jArr [JValue.jNull, JValue.jNull]) 2
     [([], [⟨0, 0, 0⟩, ⟨0, 0, 0⟩], [], JValue.jNull),
      ([], [⟨0, 0, 0⟩, ⟨0, 0, 0⟩], [], JValue.jNull)]
     rfl rfl (by rfl)⟩

end FeverNli
